import Mathlib

/-!
Shallow embedding of `src/llm_tools_imagemage.py`, an `llm` plugin wrapping the
external `imagemage` binary.  Effects (network download, filesystem tests,
subprocess execution, file reads) are abstracted as an environment of
functions; the Python functions become pure Lean functions over that
environment, and an explicit trace records which files an invocation
downloaded, which it deleted, and which commands it launched.
-/

namespace ImageMage

/-- Python `s.split(",")`, accumulator form. -/
def splitCommaAux : List Char → List Char → List String
  | [], acc => [String.mk acc.reverse]
  | c :: cs, acc =>
    if c = ',' then String.mk acc.reverse :: splitCommaAux cs []
    else splitCommaAux cs (c :: acc)

/-- Python `s.split(",")`. -/
def splitComma (s : String) : List String := splitCommaAux s.toList []

/-- Python whitespace, the default set of `str.strip` (ASCII part). -/
def isPyWS (c : Char) : Bool :=
  c = ' ' || c = '\t' || c = '\n' || c = '\r' || c.toNat = 11 || c.toNat = 12

/-- Python `s.strip()`. -/
def pyStrip (s : String) : String :=
  String.mk (((s.toList.dropWhile isPyWS).reverse.dropWhile isPyWS).reverse)

/-- Python `s.startswith(pre)`. -/
def pyStartsWith (s pre : String) : Bool := pre.toList.isPrefixOf s.toList

/-- Python `s[n:]` (slicing counts code points). -/
def pyDrop (s : String) (n : Nat) : String := String.mk (s.toList.drop n)

/-- Case-insensitive character comparison, as under `re.IGNORECASE` (ASCII). -/
def ciEq (a b : Char) : Bool := a.toLower = b.toLower

/-- Match `pat` case-insensitively as a prefix of `s`; on success return the
rest of `s`. -/
def stripCI : List Char → List Char → Option (List Char)
  | [], s => some s
  | _ :: _, [] => none
  | p :: ps, c :: cs => if ciEq p c then stripCI ps cs else none

/-- The extension alternation `(png|jpg|jpeg|webp)` of the regex at line 329,
in source order. -/
def extAlts : List String := ["png", "jpg", "jpeg", "webp"]

/-- Whether `p` is a case-insensitive prefix of `s`. -/
def ciPrefixOf (p s : List Char) : Bool := (stripCI p s).isSome

/-- First alternative of the extension alternation matching at `s`
(Python alternation is first-match, left to right). -/
def tryExts (s : List Char) : Option String :=
  extAlts.find? (fun e => ciPrefixOf e.toList s)

/-- Dot positions at which the tail `.+\.(png|jpg|jpeg|webp)` of the regex can
match when starting at `s`: index `i` holds the literal dot, the characters
before it feed the (non-newline, nonempty) `.+`, and an extension alternative
matches after it.  The matched alternative is paired with the index. -/
def dotCandidates (s : List Char) : List (Nat × String) :=
  (List.range s.length).filterMap (fun i =>
    if 1 ≤ i ∧ (s.take i).all (fun c => c != '\n') ∧ s.getD i ' ' = '.' then
      (tryExts (s.drop (i + 1))).map (fun e => (i, e))
    else none)

/-- Greedy match of `.+\.(png|jpg|jpeg|webp)` at the start of `s`: backtracking
shrinks the greedy `.+` from the right, so the rightmost viable dot position
wins.  Returns (whole consumed text, matched extension). -/
def matchTail (s : List Char) : Option (List Char × String) :=
  (dotCandidates s).getLast?.map (fun p => (s.take (p.1 + 1 + p.2.length), p.2))

/-- The literal part `Saved to: ` of the regex. -/
def savedToLit : List Char := "Saved to: ".toList

/-- The `re.search` scan: try the whole pattern at each start position,
leftmost start first. -/
def searchSavedToAux : List Char → Option (List Char × String)
  | [] => none
  | c :: cs =>
    match stripCI savedToLit (c :: cs) with
    | some rest =>
      match matchTail rest with
      | some r => some r
      | none => searchSavedToAux cs
    | none => searchSavedToAux cs

/-- Model of line 329, the search
`re.search("Saved to: (.+\.(png|jpg|jpeg|webp))", out, re.IGNORECASE)`:
`some (group1, group2lowered)` for the leftmost, greedy match, else `none`.
The extension comes back lowercased, as `match.group(2).lower()` at line 337
produces it (the alternation matched case-insensitively against a lowercase
alternative). -/
def searchSavedTo (s : String) : Option (String × String) :=
  (searchSavedToAux s.toList).map (fun p => (String.mk p.1, p.2))

/-- The `mime_types` dict lookup `.get(extension, "image/png")`
(lines 340 to 346). -/
def mimeOf (e : String) : String :=
  match [("png", "image/png"), ("jpg", "image/jpeg"), ("jpeg", "image/jpeg"),
      ("webp", "image/webp")].find? (fun p => p.1 == e) with
  | some p => p.2
  | none => "image/png"

/-- A returned attachment, `llm.Attachment(content=..., type=...)`; file bytes
are modelled as `List Nat`. -/
structure Attachment where
  content : List Nat
  type : String
  deriving DecidableEq

/-- The value returned by the tool, `llm.ToolOutput(message, attachments)`;
a bare `llm.ToolOutput(msg)` has no attachments. -/
structure ToolOutput where
  message : String
  attachments : List Attachment := []
  deriving DecidableEq

/-- Outcome of `subprocess.run(cmd, capture_output=True, text=True, timeout=n)`:
expiry of the timeout, another launch exception, or completion with an exit
status and captured stdout and stderr. -/
inductive RunResult where
  | timeout
  | exn (msg : String)
  | completed (returncode : Int) (stdout stderr : String)
  deriving DecidableEq

/-- The ambient effects of the module: `shutil.which("imagemage")` as a Bool,
`_download_url_to_temp` (network plus temp-file creation, abstracted to the
path of the temp file it returns or the exception it raises),
`os.path.isfile`, `subprocess.run` applied to a command and a timeout, and
`open(path, "rb").read()`. -/
structure Env where
  whichImagemage : Bool
  download : String → Except String String
  isFile : String → Bool
  run : List String → Nat → RunResult
  readFile : String → Except String (List Nat)

/-- Observable effect trace of one `generate_image` invocation: every path
returned by a successful download, every path handed to `os.unlink` by
`_cleanup_temp_files`, and every command launched with its timeout. -/
structure Trace where
  downloads : List String
  deleted : List String
  runs : List (List String × Nat)
  deriving DecidableEq

/-- `_cleanup_temp_files` (lines 82 to 88) attempts `os.unlink` on each listed
file, ignoring errors; its observable effect is the list of attempted
deletions. -/
def _cleanup_temp_files (temp_files : List String) : List String := temp_files

/-- `_resolve_image_path` (lines 61 to 79): resolve an image path or URL to a
local path, together with the temp file if one was downloaded. -/
def _resolve_image_path (env : Env) (path_or_url : String) :
    Except String (String × Option String) :=
  if pyStartsWith path_or_url "http://" || pyStartsWith path_or_url "https://" then
    match env.download path_or_url with
    | .ok t => .ok (t, some t)
    | .error e => .error e
  else if pyStartsWith path_or_url "file://" then
    .ok (pyDrop path_or_url 7, none)
  else
    .ok (path_or_url, none)

/-- The parameters of `generate_image`, with their Python defaults.  The
`aspect` field models the `aspect_ratio` parameter. -/
structure Args where
  prompt : String
  mode : String := "generate"
  input_images : String := ""
  output_path : String := ""
  aspect : String := ""
  resolution : String := ""
  model : String := "pro"
  style : String := ""
  auto_open : Bool := true
  deriving DecidableEq

/-- Line 247: `[p.strip() for p in input_images.split(",") if p.strip()]`. -/
def imageSources (a : Args) : List String :=
  ((splitComma a.input_images).map pyStrip).filter (fun p => p != "")

/-- Accumulator of the edit-mode resolution loop: the `resolved_images` list,
all successful download results, and the Python `temp_files` list. -/
structure ResolveAcc where
  resolved : List String
  dls : List String
  temps : List String
  deriving DecidableEq

/-- Error data of the resolution loop: the failing source, the exception text,
and the accumulated download state at failure time. -/
structure ResolveErr where
  source : String
  msg : String
  dls : List String
  temps : List String
  deriving DecidableEq

/-- The `for img_source in image_sources` loop (lines 255 to 264).  A returned
temp path is appended to `temp_files` when truthy (non-None and nonempty, the
Python `if temp_file:` test). -/
def resolveFold (env : Env) : List String → ResolveAcc → Except ResolveErr ResolveAcc
  | [], acc => .ok acc
  | s :: rest, acc =>
    match _resolve_image_path env s with
    | .error e => .error ⟨s, e, acc.dls, acc.temps⟩
    | .ok (lp, tf) =>
      resolveFold env rest
        ⟨acc.resolved ++ [lp],
         (match tf with | some t => acc.dls ++ [t] | none => acc.dls),
         (match tf with
          | some t => if t ≠ "" then acc.temps ++ [t] else acc.temps
          | none => acc.temps)⟩

/-- Line 284: `["-o", output_path]` when `output_path` is truthy. -/
def outOpt (a : Args) : List String :=
  if a.output_path ≠ "" then ["-o", a.output_path] else []

/-- Line 287: `["-a", aspect_ratio]` when the aspect ratio is truthy. -/
def aspectOpt (a : Args) : List String :=
  if a.aspect ≠ "" then ["-a", a.aspect] else []

/-- Lines 290 to 294: `["-r", resolution or "2K"]` unless `model == "flash"`,
in which case `["--frugal"]`. -/
def resOpt (a : Args) : List String :=
  if a.model ≠ "flash" then ["-r", if a.resolution ≠ "" then a.resolution else "2K"]
  else ["--frugal"]

/-- Lines 297 to 298: `["-s", style]` when `style` is truthy and the mode is
not `edit`. -/
def styleOpt (a : Args) : List String :=
  if a.style ≠ "" ∧ a.mode ≠ "edit" then ["-s", a.style] else []

/-- Lines 283 to 298: append the optional flags to `cmd`, in source order. -/
def addOpts (a : Args) (cmd : List String) : List String :=
  ((cmd ++ outOpt a) ++ aspectOpt a ++ resOpt a) ++ styleOpt a

/-- The option suffix appended by `addOpts`. -/
def optTail (a : Args) : List String :=
  outOpt a ++ aspectOpt a ++ resOpt a ++ styleOpt a

/-- Lines 300 to 369: run the binary (fixed 300 second timeout) and package
the result.  `dls` and `temps` carry the download trace accumulated while the
inputs were resolved; every branch runs `_cleanup_temp_files temps` (lines
309, 315 and 319), so the deletion trace is `temps` throughout. -/
def runPhase (env : Env) (cmd : List String) (dls temps : List String) :
    ToolOutput × Trace :=
  match env.run cmd 300 with
  | .timeout =>
    (⟨"Error: Image generation timed out after 5 minutes. Try a simpler prompt or use model='flash' for faster generation.", []⟩,
     ⟨dls, _cleanup_temp_files temps, [(cmd, 300)]⟩)
  | .exn e =>
    (⟨"Error running imagemage: " ++ e, []⟩,
     ⟨dls, _cleanup_temp_files temps, [(cmd, 300)]⟩)
  | .completed rc out err =>
    if rc ≠ 0 then
      (⟨"Error: " ++ (if err ≠ "" then err else if out ≠ "" then out else "Unknown error"), []⟩,
       ⟨dls, _cleanup_temp_files temps, [(cmd, 300)]⟩)
    else
      match searchSavedTo out with
      | none =>
        (⟨"Image may have been generated but could not find output path:\n" ++ out, []⟩,
         ⟨dls, _cleanup_temp_files temps, [(cmd, 300)]⟩)
      | some (g1, ext) =>
        match env.readFile (pyStrip g1) with
        | .ok bytes =>
          (⟨"Generated image saved to: " ++ pyStrip g1, [⟨bytes, mimeOf ext⟩]⟩,
           ⟨dls, _cleanup_temp_files temps, [(cmd, 300)]⟩)
        | .error e =>
          (⟨"Image saved to " ++ pyStrip g1 ++ " but failed to load for preview: " ++ e, []⟩,
           ⟨dls, _cleanup_temp_files temps, [(cmd, 300)]⟩)

/-- Lines 242 to 277: edit-mode input validation, resolution and command
construction.  `resolved` is provably nonempty when indexed (its length equals
that of the nonempty source list), matching `resolved_images[0]`. -/
def editFlow (env : Env) (a : Args) : ToolOutput × Trace :=
  if a.input_images = "" then
    (⟨"Error: edit mode requires input_images parameter with path(s) to image(s)", []⟩,
     ⟨[], [], []⟩)
  else if imageSources a = [] then
    (⟨"Error: edit mode requires at least one image path or URL", []⟩, ⟨[], [], []⟩)
  else
    match resolveFold env (imageSources a) ⟨[], [], []⟩ with
    | .error e =>
      (⟨"Error downloading image from " ++ e.source ++ ": " ++ e.msg, []⟩,
       ⟨e.dls, _cleanup_temp_files e.temps, []⟩)
    | .ok acc =>
      match acc.resolved.find? (fun img => !env.isFile img) with
      | some img =>
        (⟨"Error: input image not found: " ++ img, []⟩,
         ⟨acc.dls, _cleanup_temp_files acc.temps, []⟩)
      | none =>
        runPhase env
          (addOpts a (["imagemage", "edit", acc.resolved.headD "", a.prompt] ++
            (acc.resolved.drop 1).flatMap (fun img => ["-i", img])))
          acc.dls acc.temps

/-- `generate_image` (lines 229 to 369). -/
def generate_image (env : Env) (a : Args) : ToolOutput × Trace :=
  if env.whichImagemage = true then
    if a.mode = "edit" then editFlow env a
    else runPhase env (addOpts a ["imagemage", "generate", a.prompt]) [] []
  else
    (⟨"Error: imagemage not found in PATH. Install with:\n  git clone https://github.com/quinnypig/imagemage.git\n  cd imagemage && go build -o imagemage\n  # Then add to PATH or: go install", []⟩,
     ⟨[], [], []⟩)

/-! Concrete environments and argument records used to instantiate the
theorems below. -/

/-- An environment in which everything succeeds: the binary is on the PATH,
every download lands in `/tmp/dl1.png`, every path is a file, the binary
prints a confirmation line and exits 0, and the produced file reads as three
bytes. -/
def envOk : Env :=
  ⟨true, fun _ => .ok "/tmp/dl1.png", fun _ => true,
   fun _ _ => .completed 0 "Saved to: /out/pic.png" "", fun _ => .ok [7, 8, 9]⟩

/-- Like `envOk`, but the binary prints no confirmation line. -/
def envNoMatch : Env := { envOk with run := fun _ _ => .completed 0 "all done" "" }

/-- Like `envOk`, but every run of the binary hits the timeout. -/
def envTimeout : Env := { envOk with run := fun _ _ => .timeout }

/-- Like `envOk`, but the binary exits with status 2 and an error on stderr. -/
def envFail : Env := { envOk with run := fun _ _ => .completed 2 "" "boom" }

/-- A plain generate-mode invocation. -/
def argsGen : Args := { prompt := "a cat" }

/-- A generate-mode invocation with a style. -/
def argsGenStyled : Args := { prompt := "a cat", style := "watercolor" }

/-- An edit-mode invocation with a remote input image and a style. -/
def argsEdit : Args :=
  { prompt := "fix", mode := "edit", input_images := "http://h/i.png",
    style := "watercolor" }

/-- A flash-model invocation whose prompt is the literal string `-r`. -/
def argsFlash : Args := { prompt := "-r", model := "flash" }

/-- An edit-mode invocation whose `input_images` splits into whitespace-only
pieces. -/
def argsEditBlank : Args := { prompt := "p", mode := "edit", input_images := " , " }

/-! Helper lemmas about the embedding. -/

/-- The trace of `runPhase` is the same on every branch: the incoming download
trace, the cleanup of `temps`, and the single launch of `cmd` with timeout
300. -/
lemma runPhase_trace (env : Env) (cmd : List String) (dls temps : List String) :
    (runPhase env cmd dls temps).2 = ⟨dls, temps, [(cmd, 300)]⟩ := by
  unfold runPhase
  rcases env.run cmd 300 with _ | e | ⟨rc, out, err⟩
  · rfl
  · rfl
  · dsimp only
    split
    · rfl
    · rcases searchSavedTo out with _ | ⟨g1, ext⟩
      · rfl
      · dsimp only
        rcases env.readFile (pyStrip g1) with e | bytes
        · rfl
        · rfl

/-- Every invocation either stops before launching anything (returning no
attachment) or its result is `runPhase` on the command built by `addOpts`. -/
lemma gen_cases (env : Env) (a : Args) :
    ((generate_image env a).2.runs = [] ∧ (generate_image env a).1.attachments = []) ∨
    ∃ base dls temps, generate_image env a = runPhase env (addOpts a base) dls temps := by
  unfold generate_image
  split
  · split
    · unfold editFlow
      split
      · exact Or.inl ⟨rfl, rfl⟩
      · split
        · exact Or.inl ⟨rfl, rfl⟩
        · split
          · exact Or.inl ⟨rfl, rfl⟩
          · split
            · exact Or.inl ⟨rfl, rfl⟩
            · exact Or.inr ⟨_, _, _, rfl⟩
    · exact Or.inr ⟨_, _, _, rfl⟩
  · exact Or.inl ⟨rfl, rfl⟩

lemma runPhase_timeout_eq (env : Env) (cmd : List String) (dls temps : List String)
    (h : env.run cmd 300 = RunResult.timeout) :
    runPhase env cmd dls temps =
      (⟨"Error: Image generation timed out after 5 minutes. Try a simpler prompt or use model='flash' for faster generation.", []⟩,
       ⟨dls, temps, [(cmd, 300)]⟩) := by
  unfold runPhase
  rw [h]
  rfl

lemma runPhase_nonzero_eq (env : Env) (cmd : List String) (dls temps : List String)
    (rc : Int) (out err : String)
    (h : env.run cmd 300 = RunResult.completed rc out err) (hrc : rc ≠ 0) :
    runPhase env cmd dls temps =
      (⟨"Error: " ++ (if err ≠ "" then err else if out ≠ "" then out else "Unknown error"), []⟩,
       ⟨dls, temps, [(cmd, 300)]⟩) := by
  unfold runPhase
  rw [h]
  simp [hrc, _cleanup_temp_files]

lemma runPhase_no_match_eq (env : Env) (cmd : List String) (dls temps : List String)
    (out err : String)
    (h : env.run cmd 300 = RunResult.completed 0 out err)
    (hs : searchSavedTo out = none) :
    runPhase env cmd dls temps =
      (⟨"Image may have been generated but could not find output path:\n" ++ out, []⟩,
       ⟨dls, temps, [(cmd, 300)]⟩) := by
  unfold runPhase
  rw [h]
  simp [hs, _cleanup_temp_files]

lemma runPhase_match_ok_eq (env : Env) (cmd : List String) (dls temps : List String)
    (out err g1 ext : String) (bytes : List Nat)
    (h : env.run cmd 300 = RunResult.completed 0 out err)
    (hs : searchSavedTo out = some (g1, ext))
    (hrd : env.readFile (pyStrip g1) = Except.ok bytes) :
    runPhase env cmd dls temps =
      (⟨"Generated image saved to: " ++ pyStrip g1, [⟨bytes, mimeOf ext⟩]⟩,
       ⟨dls, temps, [(cmd, 300)]⟩) := by
  unfold runPhase
  rw [h]
  simp [hs, hrd, _cleanup_temp_files]

lemma runPhase_match_readErr_eq (env : Env) (cmd : List String) (dls temps : List String)
    (out err g1 ext e : String)
    (h : env.run cmd 300 = RunResult.completed 0 out err)
    (hs : searchSavedTo out = some (g1, ext))
    (hrd : env.readFile (pyStrip g1) = Except.error e) :
    runPhase env cmd dls temps =
      (⟨"Image saved to " ++ pyStrip g1 ++ " but failed to load for preview: " ++ e, []⟩,
       ⟨dls, temps, [(cmd, 300)]⟩) := by
  unfold runPhase
  rw [h]
  simp [hs, hrd, _cleanup_temp_files]

/-- A temp-file component can only come out of `_resolve_image_path` as the
result of a successful download of that very path. -/
lemma resolve_temp_is_download (env : Env) (s lp t : String)
    (h : _resolve_image_path env s = .ok (lp, some t)) :
    env.download s = .ok t := by
  unfold _resolve_image_path at h
  split at h
  · cases hd : env.download s with
    | ok u =>
      rw [hd] at h
      dsimp only at h
      injection h with h
      injection h with h1 h2
      rw [Option.some.injEq] at h2
      rw [h2]
    | error e => rw [hd] at h; exact absurd h (by simp)
  · split at h
    · injection h with h; injection h with h1 h2; exact absurd h2 (by simp)
    · injection h with h; injection h with h1 h2; exact absurd h2 (by simp)

/-- When no successful download returns an empty path, the resolution loop
keeps the list of successful downloads equal to the Python `temp_files`
list, in the success accumulator. -/
lemma resolveFold_ok_dls_eq (env : Env)
    (hne : ∀ u t, env.download u = .ok t → t ≠ "") :
    ∀ (srcs : List String) (acc r : ResolveAcc), acc.dls = acc.temps →
      resolveFold env srcs acc = .ok r → r.dls = r.temps := by
  intro srcs
  induction srcs with
  | nil =>
    intro acc r hacc h
    unfold resolveFold at h
    injection h with h
    exact h ▸ hacc
  | cons s rest ih =>
    intro acc r hacc h
    unfold resolveFold at h
    cases hr : _resolve_image_path env s with
    | error e => rw [hr] at h; exact absurd h (by simp)
    | ok p =>
      rw [hr] at h
      obtain ⟨lp, tf⟩ := p
      cases tf with
      | none =>
        dsimp only at h
        exact ih ⟨acc.resolved ++ [lp], acc.dls, acc.temps⟩ r hacc h
      | some t =>
        have ht : t ≠ "" := hne s t (resolve_temp_is_download env s lp t hr)
        dsimp only at h
        refine ih _ r ?_ h
        dsimp only
        simp only [if_pos ht]
        rw [hacc]

/-- The same invariant for the failure path of the resolution loop. -/
lemma resolveFold_err_dls_eq (env : Env)
    (hne : ∀ u t, env.download u = .ok t → t ≠ "") :
    ∀ (srcs : List String) (acc : ResolveAcc) (e : ResolveErr), acc.dls = acc.temps →
      resolveFold env srcs acc = .error e → e.dls = e.temps := by
  intro srcs
  induction srcs with
  | nil =>
    intro acc e hacc h
    unfold resolveFold at h
    exact absurd h (by simp)
  | cons s rest ih =>
    intro acc e hacc h
    unfold resolveFold at h
    cases hr : _resolve_image_path env s with
    | error e' =>
      rw [hr] at h
      injection h with h
      exact h ▸ hacc
    | ok p =>
      rw [hr] at h
      obtain ⟨lp, tf⟩ := p
      cases tf with
      | none =>
        dsimp only at h
        exact ih ⟨acc.resolved ++ [lp], acc.dls, acc.temps⟩ e hacc h
      | some t =>
        have ht : t ≠ "" := hne s t (resolve_temp_is_download env s lp t hr)
        dsimp only at h
        refine ih _ e ?_ h
        dsimp only
        simp only [if_pos ht]
        rw [hacc]

/-- On every return path the downloads recorded in the trace coincide with the
files handed to `_cleanup_temp_files`, as long as no successful download
returns an empty path (the `if temp_file:` truthiness test at line 259 would
drop such a path from `temp_files`; `tempfile.NamedTemporaryFile` never
produces one). -/
lemma gen_downloads_eq_deleted (env : Env) (a : Args)
    (hne : ∀ u t, env.download u = .ok t → t ≠ "") :
    (generate_image env a).2.downloads = (generate_image env a).2.deleted := by
  unfold generate_image
  split
  · split
    · unfold editFlow
      split
      · rfl
      · split
        · rfl
        · cases hfold : resolveFold env (imageSources a) ⟨[], [], []⟩ with
          | error e =>
            have := resolveFold_err_dls_eq env hne (imageSources a) ⟨[], [], []⟩ e rfl hfold
            simp [_cleanup_temp_files, this]
          | ok acc =>
            have := resolveFold_ok_dls_eq env hne (imageSources a) ⟨[], [], []⟩ acc rfl hfold
            dsimp only
            cases hfind : acc.resolved.find? (fun img => !env.isFile img) with
            | some img => simp [_cleanup_temp_files, this]
            | none => rw [runPhase_trace]; exact this
    · rw [runPhase_trace]
  · rfl

/-- A successful alternation match yields one of the four alternatives. -/
lemma tryExts_mem {s : List Char} {e : String} (h : tryExts s = some e) :
    e ∈ extAlts :=
  List.mem_of_find?_eq_some h

/-- The extension of every dot candidate is one of the four alternatives. -/
lemma dotCandidates_ext_mem {s : List Char} {p : Nat × String}
    (h : p ∈ dotCandidates s) : p.2 ∈ extAlts := by
  unfold dotCandidates at h
  rw [List.mem_filterMap] at h
  obtain ⟨i, -, hi⟩ := h
  split at hi
  · rw [Option.map_eq_some'] at hi
    obtain ⟨e, he, hp⟩ := hi
    exact hp ▸ tryExts_mem he
  · exact absurd hi (by simp)

/-- The extension of a greedy tail match is one of the four alternatives. -/
lemma matchTail_ext_mem {s g : List Char} {e : String}
    (h : matchTail s = some (g, e)) : e ∈ extAlts := by
  unfold matchTail at h
  rw [Option.map_eq_some'] at h
  obtain ⟨p, hp, hpe⟩ := h
  have hmem := dotCandidates_ext_mem (List.mem_of_getLast?_eq_some hp)
  injection hpe with h1 h2
  exact h2 ▸ hmem

/-- The extension found by the scan is one of the four alternatives. -/
lemma searchAux_ext_mem : ∀ (l g : List Char) (e : String),
    searchSavedToAux l = some (g, e) → e ∈ extAlts := by
  intro l
  induction l with
  | nil => intro g e h; exact absurd h (by simp [searchSavedToAux])
  | cons c cs ih =>
    intro g e h
    unfold searchSavedToAux at h
    cases hst : stripCI savedToLit (c :: cs) with
    | none =>
      rw [hst] at h
      exact ih g e h
    | some rest =>
      rw [hst] at h
      dsimp only at h
      cases hmt : matchTail rest with
      | none =>
        rw [hmt] at h
        exact ih g e h
      | some r =>
        rw [hmt] at h
        obtain rfl : r = (g, e) := Option.some.inj h
        exact matchTail_ext_mem hmt

/-- The lowercased extension produced by the stdout search is one of
`png`, `jpg`, `jpeg`, `webp`. -/
lemma searchSavedTo_ext_mem {s g e : String}
    (h : searchSavedTo s = some (g, e)) : e ∈ extAlts := by
  unfold searchSavedTo at h
  rw [Option.map_eq_some'] at h
  obtain ⟨p, hp, hpe⟩ := h
  obtain ⟨pg, pe⟩ := p
  injection hpe with h1 h2
  exact h2 ▸ searchAux_ext_mem _ _ _ hp

/-- The MIME type of any of the four extensions is one of the three image
MIME types. -/
lemma mimeOf_mem {e : String} (he : e ∈ extAlts) :
    mimeOf e ∈ ["image/png", "image/jpeg", "image/webp"] := by
  simp only [extAlts, List.mem_cons, List.mem_singleton, List.not_mem_nil, or_false] at he
  rcases he with h | h | h | h <;> subst h <;> decide

/-- Any attachment produced by the run phase carries the MIME type derived
from a matched extension. -/
lemma runPhase_att_mime (env : Env) (cmd : List String) (dls temps : List String) :
    ∀ att ∈ (runPhase env cmd dls temps).1.attachments,
      att.type ∈ ["image/png", "image/jpeg", "image/webp"] := by
  unfold runPhase
  rcases env.run cmd 300 with _ | e | ⟨rc, out, err⟩
  · simp
  · simp
  · dsimp only
    split
    · simp
    · cases hs : searchSavedTo out with
      | none => simp
      | some p =>
        obtain ⟨g1, ext⟩ := p
        dsimp only
        rcases env.readFile (pyStrip g1) with e | bytes
        · simp
        · intro att hatt
          simp only [List.mem_singleton] at hatt
          subst hatt
          exact mimeOf_mem (searchSavedTo_ext_mem hs)

/-- An adjacent pair sitting explicitly in a list is found by indexing. -/
lemma pair_get_append (l l' : List String) (x y : String) :
    ∃ i, (l ++ x :: y :: l')[i]? = some x ∧ (l ++ x :: y :: l')[i + 1]? = some y := by
  refine ⟨l.length, ?_, ?_⟩
  · rw [List.getElem?_append_right (Nat.le_refl _)]
    simp
  · rw [List.getElem?_append_right (Nat.le_add_right _ _)]
    simp

/-! The claims. -/

/-- C1: for every invocation of `generate_image`, every temporary file created
by downloading a remote (`http://` or `https://`) input image is deleted
before the function returns, on every return path reached after the download
(later download failure, missing-file validation failure, subprocess timeout,
subprocess launch failure, and the normal post-run path).  The hypothesis
reflects that `tempfile.NamedTemporaryFile` never returns an empty path
(an empty path would fail the `if temp_file:` truthiness test at line 259). -/
theorem C1_temp_cleanup (env : Env) (a : Args)
    (hne : ∀ u t, env.download u = Except.ok t → t ≠ "") :
    ∀ t ∈ (generate_image env a).2.downloads, t ∈ (generate_image env a).2.deleted := by
  intro t ht
  rw [gen_downloads_eq_deleted env a hne] at ht
  exact ht

/-- Witness for C1: a concrete edit-mode invocation that downloads one remote
image; the download is recorded and deleted. -/
theorem C1_witness :
    (∀ u t, envOk.download u = Except.ok t → t ≠ "") ∧
    (generate_image envOk argsEdit).2.downloads = ["/tmp/dl1.png"] ∧
    ∀ t ∈ (generate_image envOk argsEdit).2.downloads,
      t ∈ (generate_image envOk argsEdit).2.deleted := by
  refine ⟨fun u t h => ?_, by decide, C1_temp_cleanup envOk argsEdit (fun u t h => ?_)⟩
  · injection h with h
    rw [← h]
    decide
  · injection h with h
    rw [← h]
    decide

/-- C2: after the binary exits with status zero, `generate_image` searches
stdout case-insensitively for `Saved to: <path>` with the path ending in
`.png`, `.jpg`, `.jpeg` or `.webp`; whenever no such match exists it returns
the could-not-find-output-path message with no attachment. -/
theorem C2_no_match (env : Env) (a : Args) (out err : String)
    (hrun : ∀ c n, env.run c n = RunResult.completed 0 out err)
    (hs : searchSavedTo out = none)
    (hr : (generate_image env a).2.runs ≠ []) :
    (generate_image env a).1 =
      ⟨"Image may have been generated but could not find output path:\n" ++ out, []⟩ := by
  rcases gen_cases env a with ⟨h0, -⟩ | ⟨base, dls, temps, hg⟩
  · exact absurd h0 hr
  · rw [hg, runPhase_no_match_eq env (addOpts a base) dls temps out err
      (hrun (addOpts a base) 300) hs]

/-- Witness for C2: stdout `all done` matches nothing, and the invocation
returns the could-not-find message with no attachment. -/
theorem C2_witness :
    searchSavedTo "all done" = none ∧
    (generate_image envNoMatch argsGen).1 =
      ⟨"Image may have been generated but could not find output path:\n" ++ "all done", []⟩ :=
  ⟨by decide,
   C2_no_match envNoMatch argsGen "all done" "" (fun c n => rfl) (by decide) (by decide)⟩

/-- C3: when the confirmation pattern matches and the file at the extracted
(stripped) path can be read, the result message is
`Generated image saved to: <path>` with exactly the file's bytes attached; if
reading raises, the result says the image was saved but failed to load for
preview, with no attachment. -/
theorem C3_package_result (env : Env) (a : Args) (out err g1 ext : String)
    (hrun : ∀ c n, env.run c n = RunResult.completed 0 out err)
    (hs : searchSavedTo out = some (g1, ext))
    (hr : (generate_image env a).2.runs ≠ []) :
    (∀ bytes, env.readFile (pyStrip g1) = Except.ok bytes →
      (generate_image env a).1 =
        ⟨"Generated image saved to: " ++ pyStrip g1, [⟨bytes, mimeOf ext⟩]⟩) ∧
    (∀ e, env.readFile (pyStrip g1) = Except.error e →
      (generate_image env a).1 =
        ⟨"Image saved to " ++ pyStrip g1 ++ " but failed to load for preview: " ++ e, []⟩) := by
  rcases gen_cases env a with ⟨h0, -⟩ | ⟨base, dls, temps, hg⟩
  · exact absurd h0 hr
  · constructor
    · intro bytes hrd
      rw [hg, runPhase_match_ok_eq env (addOpts a base) dls temps out err g1 ext bytes
        (hrun (addOpts a base) 300) hs hrd]
    · intro e hrd
      rw [hg, runPhase_match_readErr_eq env (addOpts a base) dls temps out err g1 ext e
        (hrun (addOpts a base) 300) hs hrd]

/-- Witness for C3: the confirmation line names `/out/pic.png`, it reads as
three bytes, and they come back attached with the png MIME type. -/
theorem C3_witness :
    envOk.readFile (pyStrip "/out/pic.png") = Except.ok [7, 8, 9] ∧
    (generate_image envOk argsGen).1 =
      ⟨"Generated image saved to: " ++ pyStrip "/out/pic.png", [⟨[7, 8, 9], mimeOf "png"⟩]⟩ :=
  ⟨rfl,
   (C3_package_result envOk argsGen "Saved to: /out/pic.png" "" "/out/pic.png" "png"
      (fun c n => rfl) (by decide) (by decide)).1 [7, 8, 9] rfl⟩

/-- C4 counterexample: the claim says the style flag is passed regardless of
mode, but in a concrete edit-mode invocation with a non-empty style the
command run contains no `-s` at all (line 297 requires `mode != "edit"`). -/
theorem C4_counterexample :
    argsEdit.style = "watercolor" ∧
    (generate_image envOk argsEdit).2.runs.map Prod.fst =
      [["imagemage", "edit", "/tmp/dl1.png", "fix", "-r", "2K"]] ∧
    "-s" ∉ ["imagemage", "edit", "/tmp/dl1.png", "fix", "-r", "2K"] :=
  ⟨rfl, by decide, by decide⟩

/-- C4 (amended): with a non-empty style, every command passed to the binary
in a non-edit mode contains `-s` immediately followed by the style value; in
edit mode the builder appends no style flag. -/
theorem C4_style_flag (env : Env) (a : Args) (hst : a.style ≠ "") :
    (a.mode ≠ "edit" → ∀ r ∈ (generate_image env a).2.runs,
      ∃ i, r.1[i]? = some "-s" ∧ r.1[i + 1]? = some a.style) ∧
    (a.mode = "edit" → styleOpt a = []) := by
  constructor
  · intro hm r hr
    rcases gen_cases env a with ⟨h0, -⟩ | ⟨base, dls, temps, hg⟩
    · rw [h0] at hr
      exact absurd hr (List.not_mem_nil r)
    · rw [hg, runPhase_trace] at hr
      have hre : r = (addOpts a base, 300) := by simpa using hr
      subst hre
      dsimp only
      have hso : styleOpt a = ["-s", a.style] := by
        unfold styleOpt
        rw [if_pos ⟨hst, hm⟩]
      unfold addOpts
      rw [hso]
      exact pair_get_append (((base ++ outOpt a) ++ aspectOpt a) ++ resOpt a) [] "-s" a.style
  · intro hm
    unfold styleOpt
    exact if_neg (fun hc => hc.2 hm)

/-- Witness for C4 (amended): a generate-mode invocation with a style gets
`-s watercolor` into the launched command. -/
theorem C4_witness :
    ∃ i, (["imagemage", "generate", "a cat", "-r", "2K", "-s", "watercolor"] :
        List String)[i]? = some "-s" ∧
      (["imagemage", "generate", "a cat", "-r", "2K", "-s", "watercolor"] :
        List String)[i + 1]? = some "watercolor" :=
  (C4_style_flag envOk argsGenStyled (by decide)).1 (by decide)
    (["imagemage", "generate", "a cat", "-r", "2K", "-s", "watercolor"], 300) (by decide)

/-- C5 counterexample: with `model='flash'` the command is claimed never to
contain `-r`, but a prompt that is literally `-r` puts it there. -/
theorem C5_counterexample :
    argsFlash.model = "flash" ∧
    (generate_image envOk argsFlash).2.runs.map Prod.fst =
      [["imagemage", "generate", "-r", "--frugal"]] ∧
    "-r" ∈ ["imagemage", "generate", "-r", "--frugal"] :=
  ⟨rfl, by decide, by decide⟩

/-- C5 (amended): for model not `flash`, every command passed to the binary
contains `-r` immediately followed by the resolution value (`2K` when the
resolution is empty); for model `flash`, the resolution option the builder
appends is exactly `--frugal` (so no `-r` flag is added, though a
caller-supplied value such as the prompt can still equal `-r`), and every
command passed to the binary contains `--frugal`. -/
theorem C5_resolution_flags (env : Env) (a : Args) :
    (a.model ≠ "flash" → ∀ r ∈ (generate_image env a).2.runs,
      ∃ i, r.1[i]? = some "-r" ∧
        r.1[i + 1]? = some (if a.resolution ≠ "" then a.resolution else "2K")) ∧
    (a.model = "flash" →
      resOpt a = ["--frugal"] ∧
      ∀ r ∈ (generate_image env a).2.runs, "--frugal" ∈ r.1) := by
  constructor
  · intro hm r hr
    rcases gen_cases env a with ⟨h0, -⟩ | ⟨base, dls, temps, hg⟩
    · rw [h0] at hr
      exact absurd hr (List.not_mem_nil r)
    · rw [hg, runPhase_trace] at hr
      have hre : r = (addOpts a base, 300) := by simpa using hr
      subst hre
      dsimp only
      have hro : resOpt a =
          ["-r", if a.resolution ≠ "" then a.resolution else "2K"] := by
        unfold resOpt
        rw [if_pos hm]
      unfold addOpts
      rw [hro, List.append_assoc ((base ++ outOpt a) ++ aspectOpt a)]
      exact pair_get_append ((base ++ outOpt a) ++ aspectOpt a) (styleOpt a) "-r" _
  · intro hm
    have hro : resOpt a = ["--frugal"] := by
      unfold resOpt
      exact if_neg (fun hc => hc hm)
    refine ⟨hro, ?_⟩
    intro r hr
    rcases gen_cases env a with ⟨h0, -⟩ | ⟨base, dls, temps, hg⟩
    · rw [h0] at hr
      exact absurd hr (List.not_mem_nil r)
    · rw [hg, runPhase_trace] at hr
      have hre : r = (addOpts a base, 300) := by simpa using hr
      subst hre
      dsimp only
      unfold addOpts
      rw [hro]
      exact List.mem_append_left (styleOpt a)
        (List.mem_append_right ((base ++ outOpt a) ++ aspectOpt a) (by decide))

/-- Witness for C5 (amended): the default pro-model generate command carries
`-r 2K`. -/
theorem C5_witness :
    ∃ i, (["imagemage", "generate", "a cat", "-r", "2K"] : List String)[i]? = some "-r" ∧
      (["imagemage", "generate", "a cat", "-r", "2K"] : List String)[i + 1]? =
        some (if argsGen.resolution ≠ "" then argsGen.resolution else "2K") :=
  (C5_resolution_flags envOk argsGen).1 (by decide)
    (["imagemage", "generate", "a cat", "-r", "2K"], 300) (by decide)

/-- A string starting with `file://` starts with neither `http://` nor
`https://`. -/
lemma file_not_http {s : String} (h : pyStartsWith s "file://" = true) :
    pyStartsWith s "http://" = false ∧ pyStartsWith s "https://" = false := by
  unfold pyStartsWith at h ⊢
  rw [List.isPrefixOf_iff_prefix] at h
  constructor
  · by_contra hh
    rw [Bool.not_eq_false, List.isPrefixOf_iff_prefix] at hh
    rcases List.prefix_or_prefix_of_prefix h hh with h1 | h1
    · exact absurd (h1.eq_of_length (by decide)) (by decide)
    · exact absurd (h1.eq_of_length (by decide)) (by decide)
  · by_contra hh
    rw [Bool.not_eq_false, List.isPrefixOf_iff_prefix] at hh
    exact absurd (List.prefix_of_prefix_length_le h hh (by decide)) (by decide)

/-- C6: `_resolve_image_path` normalizes every reference to a local path: an
`http://` or `https://` input resolves to the freshly downloaded temp path
(returned also as the temp component), a `file://` input loses its
7-character scheme with no temp file, and anything else passes through
unchanged with no temp file. -/
theorem C6_resolve_image_path (env : Env) (p t : String) :
    ((pyStartsWith p "http://" = true ∨ pyStartsWith p "https://" = true) →
      env.download p = Except.ok t →
      _resolve_image_path env p = Except.ok (t, some t)) ∧
    (pyStartsWith p "file://" = true →
      _resolve_image_path env p = Except.ok (pyDrop p 7, none)) ∧
    (pyStartsWith p "http://" = false → pyStartsWith p "https://" = false →
      pyStartsWith p "file://" = false →
      _resolve_image_path env p = Except.ok (p, none)) := by
  refine ⟨?_, ?_, ?_⟩
  · intro hp hd
    unfold _resolve_image_path
    have hb : (pyStartsWith p "http://" || pyStartsWith p "https://") = true := by
      rcases hp with h | h <;> simp [h]
    simp only [hb, if_true, hd]
  · intro hf
    obtain ⟨h1, h2⟩ := file_not_http hf
    unfold _resolve_image_path
    simp [h1, h2, hf]
  · intro h1 h2 h3
    unfold _resolve_image_path
    simp [h1, h2, h3]

/-- Witness for C6: the three input shapes at concrete values. -/
theorem C6_witness :
    _resolve_image_path envOk "http://h/i.png" =
      Except.ok ("/tmp/dl1.png", some "/tmp/dl1.png") ∧
    _resolve_image_path envOk "file:///x/y.png" = Except.ok ("/x/y.png", none) ∧
    _resolve_image_path envOk "/local/z.png" = Except.ok ("/local/z.png", none) :=
  ⟨(C6_resolve_image_path envOk "http://h/i.png" "/tmp/dl1.png").1 (Or.inl (by decide)) rfl,
   (C6_resolve_image_path envOk "file:///x/y.png" "").2.1 (by decide),
   (C6_resolve_image_path envOk "/local/z.png" "").2.2 (by decide) (by decide) (by decide)⟩

/-- C7: the binary is always run with the fixed 300 second timeout, and when
the timeout expires `generate_image` returns (rather than raising) the error
message advising a simpler prompt or `model='flash'`. -/
theorem C7_fixed_timeout (env : Env) (a : Args) :
    (∀ r ∈ (generate_image env a).2.runs, r.2 = 300) ∧
    ((∀ c n, env.run c n = RunResult.timeout) →
      (generate_image env a).2.runs ≠ [] →
      (generate_image env a).1 =
        ⟨"Error: Image generation timed out after 5 minutes. Try a simpler prompt or use model='flash' for faster generation.", []⟩) := by
  constructor
  · intro r hr
    rcases gen_cases env a with ⟨h0, -⟩ | ⟨base, dls, temps, hg⟩
    · rw [h0] at hr
      exact absurd hr (List.not_mem_nil r)
    · rw [hg, runPhase_trace] at hr
      have hre : r = (addOpts a base, 300) := by simpa using hr
      rw [hre]
  · intro henv hr
    rcases gen_cases env a with ⟨h0, -⟩ | ⟨base, dls, temps, hg⟩
    · exact absurd h0 hr
    · rw [hg, runPhase_timeout_eq env (addOpts a base) dls temps (henv (addOpts a base) 300)]

/-- Witness for C7: a timing-out environment produces the timeout message. -/
theorem C7_witness :
    ((["imagemage", "generate", "a cat", "-r", "2K"], 300) : List String × Nat).2 = 300 ∧
    (generate_image envTimeout argsGen).1 =
      ⟨"Error: Image generation timed out after 5 minutes. Try a simpler prompt or use model='flash' for faster generation.", []⟩ :=
  ⟨(C7_fixed_timeout envTimeout argsGen).1
     (["imagemage", "generate", "a cat", "-r", "2K"], 300) (by decide),
   (C7_fixed_timeout envTimeout argsGen).2 (fun c n => rfl) (by decide)⟩

/-- C8: every invocation launches the external binary at most once, and a
non-zero exit produces an error ToolOutput (from stderr, else stdout, else
`Unknown error`) without a second launch. -/
theorem C8_single_launch (env : Env) (a : Args) :
    (generate_image env a).2.runs.length ≤ 1 ∧
    (∀ rc out err, (∀ c n, env.run c n = RunResult.completed rc out err) → rc ≠ 0 →
      (generate_image env a).2.runs ≠ [] →
      (generate_image env a).1 =
        ⟨"Error: " ++ (if err ≠ "" then err else if out ≠ "" then out else "Unknown error"), []⟩) := by
  constructor
  · rcases gen_cases env a with ⟨h0, -⟩ | ⟨base, dls, temps, hg⟩
    · rw [h0]
      exact Nat.zero_le 1
    · rw [hg, runPhase_trace]
      exact Nat.le_refl 1
  · intro rc out err henv hrc hr
    rcases gen_cases env a with ⟨h0, -⟩ | ⟨base, dls, temps, hg⟩
    · exact absurd h0 hr
    · rw [hg, runPhase_nonzero_eq env (addOpts a base) dls temps rc out err
        (henv (addOpts a base) 300) hrc]

/-- Witness for C8: one launch, and exit status 2 yields the stderr text. -/
theorem C8_witness :
    (generate_image envFail argsGen).2.runs.length ≤ 1 ∧
    (generate_image envFail argsGen).1 =
      ⟨"Error: " ++ (if ("boom" : String) ≠ "" then "boom"
        else if ("" : String) ≠ "" then "" else "Unknown error"), []⟩ :=
  ⟨(C8_single_launch envFail argsGen).1,
   (C8_single_launch envFail argsGen).2 2 "" "boom" (fun c n => rfl) (by decide) (by decide)⟩

/-- C9: in edit mode with `input_images` empty, or splitting on commas into
only whitespace-only pieces, the result is an error ToolOutput, the binary is
never launched, and nothing is downloaded or deleted. -/
theorem C9_edit_requires_input (env : Env) (a : Args)
    (hm : a.mode = "edit")
    (hi : a.input_images = "" ∨ ∀ p ∈ splitComma a.input_images, pyStrip p = "") :
    pyStartsWith (generate_image env a).1.message "Error:" = true ∧
    (generate_image env a).2 = ⟨[], [], []⟩ := by
  have hsrc : a.input_images ≠ "" → imageSources a = [] := by
    intro hne
    rcases hi with h | h
    · exact absurd h hne
    · unfold imageSources
      rw [List.filter_eq_nil_iff]
      intro b hb
      rw [List.mem_map] at hb
      obtain ⟨p, hp, rfl⟩ := hb
      simp [h p hp]
  unfold generate_image
  by_cases hw : env.whichImagemage = true
  · rw [if_pos hw, if_pos hm]
    unfold editFlow
    by_cases hii : a.input_images = ""
    · rw [if_pos hii]
      exact ⟨by decide, rfl⟩
    · rw [if_neg hii, if_pos (hsrc hii)]
      exact ⟨by decide, rfl⟩
  · rw [if_neg hw]
    exact ⟨by decide, rfl⟩

/-- Witness for C9: `input_images` of `" , "` strips to nothing; the result is
an error and the trace is empty. -/
theorem C9_witness :
    pyStartsWith (generate_image envOk argsEditBlank).1.message "Error:" = true ∧
    (generate_image envOk argsEditBlank).2 = ⟨[], [], []⟩ :=
  C9_edit_requires_input envOk argsEditBlank rfl (Or.inr (by decide))

/-- C10: every attachment ever returned carries one of the MIME types
`image/png`, `image/jpeg` or `image/webp`, the type being derived from the
lowercased matched extension, with both `jpg` and `jpeg` mapping to
`image/jpeg`. -/
theorem C10_attachment_mime (env : Env) (a : Args) :
    (∀ att ∈ (generate_image env a).1.attachments,
      att.type ∈ ["image/png", "image/jpeg", "image/webp"]) ∧
    mimeOf "jpg" = "image/jpeg" ∧ mimeOf "jpeg" = "image/jpeg" := by
  refine ⟨?_, rfl, rfl⟩
  rcases gen_cases env a with ⟨-, h0⟩ | ⟨base, dls, temps, hg⟩
  · rw [h0]
    intro att hatt
    exact absurd hatt (List.not_mem_nil att)
  · rw [hg]
    exact runPhase_att_mime env (addOpts a base) dls temps

/-- Witness for C10: the attachment produced by the successful concrete run
has MIME type `image/png`. -/
theorem C10_witness :
    (Attachment.mk [7, 8, 9] "image/png").type ∈ ["image/png", "image/jpeg", "image/webp"] :=
  (C10_attachment_mime envOk argsGen).1 ⟨[7, 8, 9], "image/png"⟩ (by decide)

end ImageMage
